import Mathlib

/-
Verification of the Route registration and dispatch core of
github.com/comstud/go-api-controller (file route.go), shallowly embedded
in Lean 4.  Go pointer-receiver methods that mutate the Route become
state-passing functions; the shared FrameworkRouter adapter (reached in Go
through the Route's back-reference to its Router) is threaded explicitly
as a second state component.  Go nil function values and nil interface
values are modelled as Option none; the int field defaultStatus is
modelled as Int (no overflow is relevant to any status code involved).
-/

namespace ApiController

/-- A live HTTP request.  The raw net/http request is opaque to the core;
it is identified by an id. -/
structure HttpRequest where
  reqId : Nat
deriving DecidableEq

/-- The raw net/http ResponseWriter primitive, opaque to the core. -/
structure RawResponseWriter where
  writerId : Nat
deriving DecidableEq

/-- Route-variable bindings, the mapping(string -> string) returned by the
adapter.  Modelled as an association list. -/
abbrev RouteVarsMap := List (String × String)

/-- A ControllerFn value.  The application handler body is external code,
so a function value is modelled by its identity; every claim is about
which function is attached or invoked and with what context, never about
the handler's behaviour. -/
structure ControllerFn where
  fnId : Nat
deriving DecidableEq

/-- Modelled from the spec: the opaque FrameworkRoute adapter handle
returned by FrameworkRouter.NewRoute (the adapter interface file is not
part of the sources; the spec describes it as an opaque handle able to
extract path variables from a matched request). -/
structure FrameworkRoute where
  handleId : Nat
deriving DecidableEq

/-- One entry of the underlying engine's routing table: a (method, path)
pattern wired to the registering Route's handleRequest dispatch target. -/
structure Registration where
  method : String
  path : String
deriving DecidableEq

/-- Modelled from the spec: the FrameworkRouter adapter shared by a Router
and its sub-routers (the adapter interface file is not part of the
sources).  Its NewRoute mutates the engine's internal routing table; the
table is modelled as the list of registrations performed so far. -/
structure FrameworkRouter where
  registrations : List Registration
deriving DecidableEq

/-- Modelled from the spec: FrameworkRouter.NewRoute(method, path,
handlerFn) registers the pattern with the engine and returns an opaque
handle.  The handler wired in by Route.register is always the route's own
handleRequest, so the table entry records the (method, path) pattern. -/
def FrameworkRouter.NewRoute (fw : FrameworkRouter) (method path : String) :
    FrameworkRoute × FrameworkRouter :=
  (⟨fw.registrations.length⟩, ⟨fw.registrations ++ [⟨method, path⟩]⟩)

/-- The Route struct of route.go.  fwRoute is a Go interface value, nil
until registration (none); controllerFn is a Go function value, nil until
set (none); the back-reference router pointer is modelled by the identity
of the owning Router. -/
structure Route where
  fwRoute : Option FrameworkRoute
  routerId : Nat
  method : String
  path : String
  fullPath : String
  defaultStatus : Int
  controllerFn : Option ControllerFn
deriving DecidableEq

/-- A freshly created Route, before any setter or registration: Go zero
values for fwRoute (nil), defaultStatus (0) and controllerFn (nil). -/
def mkRoute (routerId : Nat) (method path fullPath : String) : Route :=
  ⟨none, routerId, method, path, fullPath, 0, none⟩

/-- Accessor Route.ControllerFn of route.go.  Pointer-receiver methods are
embedded in state-passing style: the second component is the receiver's
state after the call. -/
def Route.ControllerFn (self : Route) : Option ControllerFn × Route :=
  (self.controllerFn, self)

/-- Accessor Route.FullPath of route.go. -/
def Route.FullPath (self : Route) : String × Route :=
  (self.fullPath, self)

/-- Accessor Route.Method of route.go. -/
def Route.Method (self : Route) : String × Route :=
  (self.method, self)

/-- Accessor Route.Path of route.go. -/
def Route.Path (self : Route) : String × Route :=
  (self.path, self)

/-- Route.RouteVars of route.go: returns self.fwRoute.RouteVars(r).  The
adapter engine's variable-extraction behaviour is external and passed as
the argument engine.  When fwRoute is a nil interface value the Go call
panics; the embedding returns none for that abort, some for a normal
return. -/
def Route.RouteVars (self : Route)
    (engine : FrameworkRoute → HttpRequest → RouteVarsMap)
    (r : HttpRequest) : Option RouteVarsMap :=
  self.fwRoute.map (fun h => engine h r)

/-- Route.SetControllerFn of route.go: assigns the field and returns self
for chaining (the returned Route is both the chained value and the
post-state). -/
def Route.SetControllerFn (self : Route) (fn : ApiController.ControllerFn) :
    Route :=
  { self with controllerFn := some fn }

/-- Route.SetDefaultStatus of route.go. -/
def Route.SetDefaultStatus (self : Route) (status : Int) : Route :=
  { self with defaultStatus := status }

/-- Route.register of route.go: resolves defaultStatus when it is the
zero sentinel (201 for POST, 200 otherwise), assigns controllerFn, then
wires the route into the engine through the owning router's adapter and
stores the returned handle. -/
def Route.register (self : Route) (fw : FrameworkRouter)
    (fn : ApiController.ControllerFn) : Route × FrameworkRouter :=
  let r1 :=
    if self.defaultStatus = 0 then
      { self with
        defaultStatus := if self.method = "POST" then 201 else 200 }
    else self
  let r2 := { r1 with controllerFn := some fn }
  let res := fw.NewRoute r2.method r2.path
  ({ r2 with fwRoute := some res.1 }, res.2)

/-- Modelled from the spec: the response-writer wrapper built by
newResponseWriter (the context/response files are not part of the
sources); it carries the raw writer and is pre-seeded with a status. -/
structure ResponseWriter where
  raw : RawResponseWriter
  status : Int
deriving DecidableEq

/-- Modelled from the spec: newResponseWriter(w, status) wraps the raw
writer with the given seeded status. -/
def newResponseWriter (w : RawResponseWriter) (status : Int) : ResponseWriter :=
  ⟨w, status⟩

/-- Modelled from the spec: the request context associating the response
wrapper, the raw request and the matched Route. -/
structure RequestContext where
  responseWriter : ResponseWriter
  request : HttpRequest
  route : Route
deriving DecidableEq

/-- Modelled from the spec: newContextForRequest builds the context from
the wrapper, the raw request and the Route. -/
def newContextForRequest (rw : ResponseWriter) (r : HttpRequest)
    (route : Route) : RequestContext :=
  ⟨rw, r, route⟩

/-- Outcome of one dispatch: the attached controller function invoked
exactly once with the built context, or the Go panic raised by calling a
nil controllerFn (which in route.go happens after the context has been
constructed, so the constructed context is recorded). -/
inductive DispatchResult where
  | invoked (fn : ControllerFn) (ctx : RequestContext)
  | panicked (ctx : RequestContext)
deriving DecidableEq

/-- Route.handleRequest of route.go: builds the context from a response
wrapper seeded with the current defaultStatus, the raw request and self,
then calls self.controllerFn(ctx); a nil controllerFn panics at that
call. -/
def Route.handleRequest (self : Route) (w : RawResponseWriter)
    (r : HttpRequest) : DispatchResult :=
  let ctx := newContextForRequest
    (newResponseWriter w self.defaultStatus) r self
  match self.controllerFn with
  | some fn => .invoked fn ctx
  | none => .panicked ctx

/-- The status that a dispatch seeded into its response wrapper. -/
def DispatchResult.seededStatus : DispatchResult → Int
  | .invoked _ ctx => ctx.responseWriter.status
  | .panicked ctx => ctx.responseWriter.status

/-- The public operations on a Route (route.go's exported setters and the
package-internal register, which the Router verb methods call). -/
inductive RouteOp where
  | setControllerFn (fn : ControllerFn)
  | setDefaultStatus (status : Int)
  | register (fn : ControllerFn)
deriving DecidableEq

/-- Whether an operation is a register call. -/
def RouteOp.isRegister : RouteOp → Bool
  | .register _ => true
  | _ => false

/-- Apply one public operation to the joint (Route, adapter) state. -/
def applyOp : Route × FrameworkRouter → RouteOp → Route × FrameworkRouter
  | (r, fw), .setControllerFn fn => (r.SetControllerFn fn, fw)
  | (r, fw), .setDefaultStatus s => (r.SetDefaultStatus s, fw)
  | (r, fw), .register fn => r.register fw fn

/-- Apply a sequence of public operations in order. -/
def applyOps (st : Route × FrameworkRouter) (ops : List RouteOp) :
    Route × FrameworkRouter :=
  ops.foldl applyOp st

/-- Spec-side definition, following the spec's words for claim C8: the
controller function supplied by the most recent SetControllerFn or
register call of a sequence (assignment, not accumulation), or the
initially attached one when the sequence supplies none. -/
def mostRecentFn (init : Option ControllerFn) :
    List RouteOp → Option ControllerFn
  | [] => init
  | .setControllerFn fn :: ops => mostRecentFn (some fn) ops
  | .register fn :: ops => mostRecentFn (some fn) ops
  | .setDefaultStatus _ :: ops => mostRecentFn init ops

/-- A sample empty adapter state. -/
def sampleFw : FrameworkRouter := ⟨[]⟩

/-- A sample controller function value. -/
def fnA : ControllerFn := ⟨1⟩

/-- Another sample controller function value. -/
def fnB : ControllerFn := ⟨2⟩

/-- A sample raw response writer. -/
def sampleW : RawResponseWriter := ⟨7⟩

/-- A sample request. -/
def sampleReq : HttpRequest := ⟨3⟩

/-- A fresh GET route. -/
def routeGet : Route := mkRoute 0 "GET" "/kittens" "/kittens"

/-- A fresh POST route. -/
def routePost : Route := mkRoute 0 "POST" "/kittens" "/kittens"

/-- A sample adapter variable-extraction behaviour returning no
bindings. -/
def trivialEngine : FrameworkRoute → HttpRequest → RouteVarsMap :=
  fun _ _ => []

/-- A sample route that has been registered. -/
def registeredGet : Route := (routeGet.register sampleFw fnA).1

/-- Status resolution of register, both branches in one equation. -/
theorem register_defaultStatus (r : Route) (fw : FrameworkRouter)
    (fn : ControllerFn) :
    ((r.register fw fn).1).defaultStatus =
      if r.defaultStatus = 0 then
        (if r.method = "POST" then 201 else 200)
      else r.defaultStatus := by
  by_cases h : r.defaultStatus = 0 <;>
    simp [Route.register, FrameworkRouter.NewRoute, h]

/-- After register, defaultStatus is nonzero. -/
theorem register_defaultStatus_ne_zero (r : Route) (fw : FrameworkRouter)
    (fn : ControllerFn) :
    ((r.register fw fn).1).defaultStatus ≠ 0 := by
  rw [register_defaultStatus]
  by_cases h : r.defaultStatus = 0
  · simp only [h, if_true]
    split <;> norm_num
  · simp [h]

/-- register stores the supplied function as the controller function. -/
theorem register_controllerFn (r : Route) (fw : FrameworkRouter)
    (fn : ControllerFn) :
    ((r.register fw fn).1).controllerFn = some fn := rfl

/-- Every operation other than SetDefaultStatus(0) keeps a nonzero
defaultStatus nonzero. -/
theorem applyOps_defaultStatus_ne_zero (ops : List RouteOp) :
    ∀ st : Route × FrameworkRouter, st.1.defaultStatus ≠ 0 →
      (∀ op ∈ ops, op ≠ RouteOp.setDefaultStatus 0) →
      ((applyOps st ops).1).defaultStatus ≠ 0 := by
  induction ops with
  | nil => exact fun st h _ => h
  | cons op ops ih =>
    rintro ⟨r, fw⟩ h hops
    have hop : op ≠ RouteOp.setDefaultStatus 0 :=
      hops op (List.mem_cons_self op ops)
    have hrest : ∀ o ∈ ops, o ≠ RouteOp.setDefaultStatus 0 :=
      fun o ho => hops o (List.mem_cons_of_mem op ho)
    show ((applyOps (applyOp (r, fw) op) ops).1).defaultStatus ≠ 0
    apply ih _ _ hrest
    cases op with
    | setControllerFn fn => simpa [applyOp, Route.SetControllerFn] using h
    | setDefaultStatus s =>
        simp only [applyOp, Route.SetDefaultStatus]
        intro hs
        exact hop (by simp [hs])
    | register fn => exact register_defaultStatus_ne_zero r fw fn

/-- No operation other than register touches the adapter handle. -/
theorem applyOps_fwRoute_no_register (ops : List RouteOp) :
    ∀ (r : Route) (fw : FrameworkRouter),
      (∀ op ∈ ops, op.isRegister = false) →
      ((applyOps (r, fw) ops).1).fwRoute = r.fwRoute := by
  induction ops with
  | nil => exact fun r fw _ => rfl
  | cons op ops ih =>
    intro r fw hops
    have hrest : ∀ o ∈ ops, o.isRegister = false :=
      fun o ho => hops o (List.mem_cons_of_mem op ho)
    cases op with
    | setControllerFn fn =>
        simpa [applyOps, applyOp, Route.SetControllerFn] using
          ih (r.SetControllerFn fn) fw hrest
    | setDefaultStatus s =>
        simpa [applyOps, applyOp, Route.SetDefaultStatus] using
          ih (r.SetDefaultStatus s) fw hrest
    | register fn =>
        exact absurd (hops _ (List.mem_cons_self _ ops))
          (by simp [RouteOp.isRegister])

/-- The status seeded into the response wrapper by a dispatch is the
route's defaultStatus at that moment. -/
theorem seededStatus_handleRequest (r : Route) (w : RawResponseWriter)
    (req : HttpRequest) :
    (r.handleRequest w req).seededStatus = r.defaultStatus := by
  cases hc : r.controllerFn <;>
    simp [Route.handleRequest, hc, DispatchResult.seededStatus,
      newContextForRequest, newResponseWriter]

/-- Claim C1: when register(fn) is called on a Route whose defaultStatus
is the unset sentinel 0, it sets defaultStatus to 201 for method POST and
to 200 for every other method; a nonzero defaultStatus set before
register is left unchanged. -/
theorem C1_register_default_status_policy (r : Route) (fw : FrameworkRouter)
    (fn : ControllerFn) :
    (r.defaultStatus = 0 →
      ((r.register fw fn).1).defaultStatus =
        (if r.method = "POST" then 201 else 200)) ∧
    (r.defaultStatus ≠ 0 →
      ((r.register fw fn).1).defaultStatus = r.defaultStatus) := by
  constructor <;> intro h <;> simp [register_defaultStatus, h]

/-- Witness for C1 at concrete routes: a fresh POST route resolves to
201, a fresh GET route to 200, and an explicit 42 survives register. -/
theorem C1_register_default_status_policy_witness :
    ((routePost.register sampleFw fnA).1).defaultStatus = 201 ∧
    ((routeGet.register sampleFw fnA).1).defaultStatus = 200 ∧
    (((routeGet.SetDefaultStatus 42).register sampleFw fnA).1).defaultStatus
      = 42 := by
  refine ⟨?_, ?_, ?_⟩
  · exact ((C1_register_default_status_policy routePost sampleFw
      fnA).1 (by decide)).trans (by decide)
  · exact ((C1_register_default_status_policy routeGet sampleFw
      fnA).1 (by decide)).trans (by decide)
  · exact ((C1_register_default_status_policy (routeGet.SetDefaultStatus 42)
      sampleFw fnA).2 (by decide)).trans (by decide)

/-- Claim C2: the status seeded into the response wrapper by
handleRequest is the value of defaultStatus at the moment of that
dispatch, so SetDefaultStatus(c) at any point before a dispatch
(including after register) changes the status observed by that and all
subsequent dispatches. -/
theorem C2_status_resolved_at_dispatch (r : Route) (w : RawResponseWriter)
    (req : HttpRequest) (c : Int) :
    (r.handleRequest w req).seededStatus = r.defaultStatus ∧
    ((r.SetDefaultStatus c).handleRequest w req).seededStatus = c :=
  ⟨seededStatus_handleRequest r w req,
   seededStatus_handleRequest (r.SetDefaultStatus c) w req⟩

/-- Claim C3 counterexample: the sequence register(fnA) then
SetDefaultStatus(0) leaves a registered Route (fwRoute present) whose
defaultStatus is 0 at dispatch time, and the dispatch seeds status 0, so
the claim fails for that operation sequence. -/
theorem C3_counterexample :
    ((applyOps (routeGet, sampleFw)
        [RouteOp.register fnA, RouteOp.setDefaultStatus 0]).1).fwRoute.isSome
      = true ∧
    ((applyOps (routeGet, sampleFw)
        [RouteOp.register fnA, RouteOp.setDefaultStatus 0]).1).defaultStatus
      = 0 ∧
    (((applyOps (routeGet, sampleFw)
        [RouteOp.register fnA, RouteOp.setDefaultStatus 0]).1).handleRequest
        sampleW sampleReq).seededStatus = 0 := by
  refine ⟨rfl, rfl, rfl⟩

/-- Claim C3 as amended: for every Route on which register has been
called, defaultStatus is nonzero when handleRequest runs, under any
sequence of the public operations before or after registration, provided
no SetDefaultStatus(0) call occurs after the last register call. -/
theorem C3_default_status_nonzero_after_register (r : Route)
    (fw : FrameworkRouter) (fn : ControllerFn) (post : List RouteOp)
    (h : ∀ op ∈ post, op ≠ RouteOp.setDefaultStatus 0)
    (w : RawResponseWriter) (req : HttpRequest) :
    ((applyOps (r.register fw fn) post).1).defaultStatus ≠ 0 ∧
    (((applyOps (r.register fw fn) post).1).handleRequest w
        req).seededStatus ≠ 0 := by
  have hne : ((applyOps (r.register fw fn) post).1).defaultStatus ≠ 0 :=
    applyOps_defaultStatus_ne_zero post (r.register fw fn)
      (register_defaultStatus_ne_zero r fw fn) h
  exact ⟨hne, by rw [seededStatus_handleRequest]; exact hne⟩

/-- Witness for amended C3: after register followed by
SetDefaultStatus(42) and SetControllerFn, the dispatched status is
nonzero. -/
theorem C3_default_status_nonzero_after_register_witness :
    (((applyOps (routeGet.register sampleFw fnA)
        [RouteOp.setDefaultStatus 42, RouteOp.setControllerFn fnB]).1
        ).handleRequest sampleW sampleReq).seededStatus ≠ 0 :=
  (C3_default_status_nonzero_after_register routeGet sampleFw fnA
    [RouteOp.setDefaultStatus 42, RouteOp.setControllerFn fnB]
    (by decide) sampleW sampleReq).2

/-- Claim C4: for a registered Route (controllerFn attached),
handleRequest builds a response wrapper pre-seeded with the route's
defaultStatus, builds the context associating the raw request, that
wrapper and the Route itself, and invokes the controller function exactly
once with that context, never with the raw primitives. -/
theorem C4_dispatch_builds_context (r : Route) (fn : ControllerFn)
    (h : r.controllerFn = some fn) (w : RawResponseWriter)
    (req : HttpRequest) :
    r.handleRequest w req =
      DispatchResult.invoked fn
        (newContextForRequest (newResponseWriter w r.defaultStatus) req r)
    := by
  simp [Route.handleRequest, h]

/-- Witness for C4 at a concrete registered route. -/
theorem C4_dispatch_builds_context_witness :
    registeredGet.handleRequest sampleW sampleReq =
      DispatchResult.invoked fnA
        (newContextForRequest
          (newResponseWriter sampleW registeredGet.defaultStatus)
          sampleReq registeredGet) :=
  C4_dispatch_builds_context registeredGet fnA (by decide) sampleW sampleReq

/-- Claim C5: register is not idempotent — each call appends exactly one
registration to the underlying engine, so calling register twice on the
same Route registers it twice. -/
theorem C5_register_not_idempotent (r : Route) (fw : FrameworkRouter)
    (fn g : ControllerFn) :
    ((r.register fw fn).2).registrations.length =
      fw.registrations.length + 1 ∧
    ((((r.register fw fn).1).register ((r.register fw fn).2)
        g).2).registrations.length = fw.registrations.length + 2 := by
  constructor <;> simp [Route.register, FrameworkRouter.NewRoute]

/-- Claim C6: on a Route on which register has never been called, after
any sequence of non-register operations, RouteVars aborts (the adapter
handle is absent, modelled as the none result) rather than returning a
value. -/
theorem C6_route_vars_before_register (i : Nat) (m p fp : String)
    (fw : FrameworkRouter) (ops : List RouteOp)
    (h : ∀ op ∈ ops, op.isRegister = false)
    (engine : FrameworkRoute → HttpRequest → RouteVarsMap)
    (req : HttpRequest) :
    ((applyOps (mkRoute i m p fp, fw) ops).1).RouteVars engine req
      = none := by
  have hf := applyOps_fwRoute_no_register ops (mkRoute i m p fp) fw h
  rw [Route.RouteVars, hf]
  rfl

/-- Witness for C6: a fresh route with a status and a controller set but
never registered yields the aborting result. -/
theorem C6_route_vars_before_register_witness :
    ((applyOps (routeGet, sampleFw)
        [RouteOp.setDefaultStatus 42, RouteOp.setControllerFn fnA]).1
        ).RouteVars trivialEngine sampleReq = none :=
  C6_route_vars_before_register 0 "GET" "/kittens" "/kittens" sampleFw
    [RouteOp.setDefaultStatus 42, RouteOp.setControllerFn fnA]
    (by decide) trivialEngine sampleReq

/-- Claim C7: handleRequest panics exactly when controllerFn is nil, and
the panic happens after context construction (the panic outcome carries
the fully built context); with a controller attached there is no panic. -/
theorem C7_nil_controller_panics (r : Route) (w : RawResponseWriter)
    (req : HttpRequest) :
    ((∃ c, r.handleRequest w req = DispatchResult.panicked c) ↔
      r.controllerFn = none) ∧
    (r.controllerFn = none →
      r.handleRequest w req =
        DispatchResult.panicked
          (newContextForRequest (newResponseWriter w r.defaultStatus) req r))
    := by
  cases hc : r.controllerFn <;> simp [Route.handleRequest, hc]

/-- Witness for C7: a fresh, never-registered route panics with the built
context. -/
theorem C7_nil_controller_panics_witness :
    routeGet.handleRequest sampleW sampleReq =
      DispatchResult.panicked
        (newContextForRequest
          (newResponseWriter sampleW routeGet.defaultStatus)
          sampleReq routeGet) :=
  (C7_nil_controller_panics routeGet sampleW sampleReq).2 rfl

/-- Claim C8: after any sequence of the public operations, the attached
controller function is exactly the one supplied by the most recent
SetControllerFn or register call (assignment, not accumulation). -/
theorem C8_controller_assignment (r : Route) (fw : FrameworkRouter)
    (ops : List RouteOp) :
    ((applyOps (r, fw) ops).1).controllerFn =
      mostRecentFn r.controllerFn ops := by
  induction ops generalizing r fw with
  | nil => rfl
  | cons op ops ih =>
    cases op with
    | setControllerFn fn =>
        exact (ih (r.SetControllerFn fn) fw).trans rfl
    | setDefaultStatus s =>
        exact (ih (r.SetDefaultStatus s) fw).trans rfl
    | register fn =>
        exact (ih ((r.register fw fn).1) ((r.register fw fn).2)).trans rfl

/-- Claim C9: the accessors Method, Path, FullPath and ControllerFn each
return the corresponding field and leave the Route completely
unchanged. -/
theorem C9_accessors_read_only (r : Route) :
    (r.Method.1 = r.method ∧ r.Method.2 = r) ∧
    (r.Path.1 = r.path ∧ r.Path.2 = r) ∧
    (r.FullPath.1 = r.fullPath ∧ r.FullPath.2 = r) ∧
    (r.ControllerFn.1 = r.controllerFn ∧ r.ControllerFn.2 = r) :=
  ⟨⟨rfl, rfl⟩, ⟨rfl, rfl⟩, ⟨rfl, rfl⟩, ⟨rfl, rfl⟩⟩

/-- Claim C10: an explicit SetDefaultStatus(0) before registration is
indistinguishable from never setting a status — register still applies
the method-based default, and on a fresh route the explicit 0 produces
exactly the same registration result. -/
theorem C10_zero_status_is_unset (r : Route) (fw : FrameworkRouter)
    (fn : ControllerFn) (i : Nat) (m p fp : String) :
    (((r.SetDefaultStatus 0).register fw fn).1).defaultStatus =
      (if r.method = "POST" then 201 else 200) ∧
    ((mkRoute i m p fp).SetDefaultStatus 0).register fw fn =
      (mkRoute i m p fp).register fw fn := by
  constructor
  · simp [register_defaultStatus, Route.SetDefaultStatus]
  · rfl

end ApiController
